import Mathlib

/-!
Verification of the EasyGeSe loader (`python/easygese/loader.py`) against its
specification. The Python code is shallowly embedded: pandas data frames become
explicit header/row structures, Python dicts become association lists that keep
insertion order, network and filesystem effects become explicit environment and
state values threaded through the functions, and every fallible operation
returns an `Except` value naming the exception the Python code would raise.
-/

deriving instance DecidableEq for Except

namespace EasyGeSe

/-- JSON values as produced by `json.load` / `response.json()`. Objects keep
their fields in insertion order, exactly as Python `dict`s do. -/
inductive Json where
  | str (s : String)
  | num (q : ℚ)
  | bool (b : Bool)
  | null
  | arr (xs : List Json)
  | obj (fields : List (String × Json))

/-- Python dict lookup `d[k]` / `d.get(k)` on an insertion-ordered dict. -/
def dictGet (d : List (String × α)) (k : String) : Option α :=
  d.lookup k

/-- Python dict assignment `d[k] = v`: overwrite in place if the key exists,
otherwise append at the end (insertion order is preserved). -/
def dictSet : List (String × α) → String → α → List (String × α)
  | [], k, v => [(k, v)]
  | (k', v') :: rest, k, v =>
      if k' = k then (k, v) :: rest else (k', v') :: dictSet rest k v

/-- The keys of a Python dict, in insertion order (`d.keys()`). -/
def dictKeys (d : List (String × α)) : List String :=
  d.map Prod.fst

theorem dictGet_dictSet (d : List (String × α)) (k : String) (v : α) :
    dictGet (dictSet d k v) k = some v := by
  induction d with
  | nil => simp [dictSet, dictGet, List.lookup]
  | cons hd tl ih =>
    obtain ⟨k', v'⟩ := hd
    by_cases h : k' = k
    · subst h
      simp [dictSet, dictGet, List.lookup]
    · have hbe : (k == k') = false := beq_eq_false_iff_ne.mpr (Ne.symm h)
      simp only [dictSet, if_neg h, dictGet, List.lookup, hbe]
      exact ih

/-- Python truthiness of a JSON value (`if obj.get(...)`). -/
def truthy : Json → Bool
  | .str s => if s = "" then false else true
  | .num q => if q = 0 then false else true
  | .bool b => b
  | .null => false
  | .arr xs => if xs.isEmpty then false else true
  | .obj fs => if fs.isEmpty then false else true

/-! ## Species-name resolution (Alias Resolver)

Modelled from the spec: the alias-based species-name resolution (spec §4.4)
used by the complete revision of `load_species` is missing from the loader
source in this snapshot; only its tests (`test_load_species_uses_resolution`)
and the package declarations (`load_species_aliases`, `SPECIES_ALIASES_URL` in
`__init__.py`) refer to it. The definitions below follow the spec's words:
lower-case the input, look it up in the alias map, check the mapped canonical
name against the canonical names, and fail with `UnknownSpeciesError` (listing
the sorted canonical names) when no match is found. The species names in this
repository are ASCII, so lower/upper casing is modelled on ASCII letters, which
is also all that Lean's `Char.toLower`/`Char.toUpper` handle. -/

/-- ASCII lower-casing of one character (`str.lower` on the repository's
ASCII species names). -/
def asciiLowerChar (c : Char) : Char :=
  if 'A' ≤ c ∧ c ≤ 'Z' then Char.ofNat (c.toNat + 32) else c

/-- ASCII upper-casing of one character (`str.upper`). -/
def asciiUpperChar (c : Char) : Char :=
  if 'a' ≤ c ∧ c ≤ 'z' then Char.ofNat (c.toNat - 32) else c

/-- `s.lower()` for ASCII strings. -/
def asciiLower (s : String) : String :=
  ⟨s.data.map asciiLowerChar⟩

/-- `s.upper()` for ASCII strings. -/
def asciiUpper (s : String) : String :=
  ⟨s.data.map asciiUpperChar⟩

/-- Failure of species-name resolution: `UnknownSpeciesError`, whose payload
is the sorted list of valid canonical names the error message enumerates. -/
inductive ResolveErr where
  | unknownSpecies (valid : List String)
deriving DecidableEq

/-- Modelled from the spec (§4.4): `resolve(input, canonical_names,
alias_map)`. Lower-case the input; if it is a key of the alias map, take the
mapped canonical name and verify it is a member of the canonical names; any
failure raises `UnknownSpeciesError` listing all canonical names, sorted.
(The spec's non-string-input check is outside this model: inputs here are
strings by type.) -/
def resolve (input : String) (canonicalNames : List String)
    (aliasMap : List (String × String)) : Except ResolveErr String :=
  match aliasMap.lookup (asciiLower input) with
  | some c =>
      if c ∈ canonicalNames then .ok c
      else .error (.unknownSpecies (canonicalNames.insertionSort (· ≤ ·)))
  | none => .error (.unknownSpecies (canonicalNames.insertionSort (· ≤ ·)))

theorem toNat_ofNat_up {n : ℕ} (h1 : 65 ≤ n) (h2 : n ≤ 90) :
    (Char.ofNat (n + 32)).toNat = n + 32 := by
  have hv : Nat.isValidChar (n + 32) := by left; omega
  simp only [Char.ofNat, hv, dif_pos]
  rfl

theorem toNat_ofNat_down {n : ℕ} (h1 : 97 ≤ n) (h2 : n ≤ 122) :
    (Char.ofNat (n - 32)).toNat = n - 32 := by
  have hv : Nat.isValidChar (n - 32) := by left; omega
  simp only [Char.ofNat, hv, dif_pos]
  rfl

theorem asciiLowerChar_asciiUpperChar (c : Char) :
    asciiLowerChar (asciiUpperChar c) = asciiLowerChar c := by
  unfold asciiUpperChar
  by_cases h : 'a' ≤ c ∧ c ≤ 'z'
  · rw [if_pos h]
    obtain ⟨h1, h2⟩ := h
    rw [Char.le_def] at h1 h2
    have h1' : 97 ≤ c.toNat := h1
    have h2' : c.toNat ≤ 122 := h2
    have htn : (Char.ofNat (c.toNat - 32)).toNat = c.toNat - 32 :=
      toNat_ofNat_down h1' h2'
    unfold asciiLowerChar
    have hcondU : 'A' ≤ Char.ofNat (c.toNat - 32) ∧ Char.ofNat (c.toNat - 32) ≤ 'Z' := by
      constructor
      · rw [Char.le_def]
        show (65 : ℕ) ≤ (Char.ofNat (c.toNat - 32)).toNat
        omega
      · rw [Char.le_def]
        show (Char.ofNat (c.toNat - 32)).toNat ≤ (90 : ℕ)
        omega
    have hcondC : ¬ ('A' ≤ c ∧ c ≤ 'Z') := by
      intro hc
      have := hc.2
      rw [Char.le_def] at this
      have : c.toNat ≤ 90 := this
      omega
    rw [if_pos hcondU, if_neg hcondC, htn]
    have : c.toNat - 32 + 32 = c.toNat := by omega
    rw [this, Char.ofNat_toNat]
  · rw [if_neg h]

theorem asciiLower_asciiUpper (s : String) :
    asciiLower (asciiUpper s) = asciiLower s := by
  unfold asciiLower asciiUpper
  cases s with
  | mk data =>
    simp [List.map_map]
    congr 1
    apply List.map_congr_left
    intro c _
    exact asciiLowerChar_asciiUpperChar c

/-- C1, counterexample: with Index `{"bean": …}` and an empty alias map, the
spec's resolution algorithm fails on the canonical name `"bean"` itself (the
lower-cased input is not a key of the alias map, so resolution fails
immediately), contradicting the claim that `resolve(c)` returns `c` for every
canonical name `c` in the Index. -/
theorem resolve_canonical_needs_alias_entry :
    resolve "bean" ["bean"] [] ≠ .ok "bean" := by
  intro h
  rw [show resolve "bean" ["bean"] [] =
    .error (.unknownSpecies ["bean"]) from rfl] at h
  exact Except.noConfusion h

/-- C1 (amended): whenever the alias map maps the lower-cased canonical name
`c` to `c` itself (as the repository's alias file does for every canonical
name), `resolve` returns `c` on `c` and on `c.upper()`; and for every alias
key `a` (alias keys are lowercase) mapped to a canonical name `c` present in
the Index, resolving any letter-casing of `a` returns `c`. -/
theorem resolve_correct (canonicalNames : List String)
    (aliasMap : List (String × String)) :
    (∀ c, c ∈ canonicalNames → aliasMap.lookup (asciiLower c) = some c →
      resolve c canonicalNames aliasMap = .ok c ∧
      resolve (asciiUpper c) canonicalNames aliasMap = .ok c) ∧
    (∀ a a' c, aliasMap.lookup a = some c → asciiLower a = a →
      c ∈ canonicalNames → asciiLower a' = asciiLower a →
      resolve a' canonicalNames aliasMap = .ok c) := by
  constructor
  · intro c hc hl
    constructor
    · unfold resolve
      rw [hl]
      simp [hc]
    · unfold resolve
      rw [asciiLower_asciiUpper, hl]
      simp [hc]
  · intro a a' c hl hlow hc heq
    unfold resolve
    rw [heq, hlow, hl]
    simp [hc]

/-- C1 witness: a concrete run of `resolve_correct` with the test-suite's
alias data (`"beans" ↦ "bean"`, self-entry `"bean" ↦ "bean"`). -/
theorem resolve_correct_witness :
    resolve "bean" ["bean", "maize"] [("bean", "bean"), ("beans", "bean")] = .ok "bean" ∧
    resolve "BEAN" ["bean", "maize"] [("bean", "bean"), ("beans", "bean")] = .ok "bean" ∧
    resolve "Beans" ["bean", "maize"] [("bean", "bean"), ("beans", "bean")] = .ok "bean" := by
  have h := resolve_correct ["bean", "maize"] [("bean", "bean"), ("beans", "bean")]
  refine ⟨?_, ?_, ?_⟩
  · exact (h.1 "bean" (by decide) (by decide)).1
  · have := (h.1 "bean" (by decide) (by decide)).2
    simpa using this
  · have := h.2 "beans" "Beans" "bean" (by decide) (by decide) (by decide) (by decide)
    exact this

/-! ## Index Loader (`download_index`, `load_index`)

The filesystem and network effects of loader.py are made explicit: the state
records the three files `load_index` may touch (the cache file
`DEFAULT_CACHE_DIR/index.json` and the two fallback locations probed at lines
111-115), and the environment records the outcome of a GET of `INDEX_URL`.
The parsed JSON document itself is opaque here (type parameter `α`): its
parsing is delegated to the `json` library. Fetch attempts are counted;
`print` calls are not modelled. -/

/-- A file on disk holding JSON: missing, present but unparsable
(`json.JSONDecodeError` on load), or present with parsed content `v`. -/
inductive CacheFile (α : Type) where
  | absent
  | corrupt
  | valid (v : α)
deriving DecidableEq

/-- `path.exists()`. -/
def CacheFile.present : CacheFile α → Bool
  | .absent => false
  | .corrupt => true
  | .valid _ => true

/-- Outcome of `requests.get(INDEX_URL, timeout=10)` + `raise_for_status()` +
`response.json()`: a transport failure (`RequestException`) or the parsed
body. -/
structure FetchEnv (α : Type) where
  remote : Except Unit α
deriving DecidableEq

/-- The files `load_index` reads, in the order its fallback probes them. -/
structure FsState (α : Type) where
  cache : CacheFile α
  repoFile : CacheFile α
  homeFile : CacheFile α
deriving DecidableEq

inductive DlErr where
  | network
deriving DecidableEq

/-- `download_index` returns a path; the only path it ever returns is the
cache file's. -/
inductive PathId where
  | cacheFilePath
deriving DecidableEq

/-- One run of `download_index`: its result, the filesystem afterwards, and
how many fetch attempts it made. -/
structure DlRun (α : Type) where
  res : Except DlErr PathId
  st : FsState α
  fetches : ℕ
deriving DecidableEq

/-- loader.py lines 24-61, `download_index(force)`: return the cache path at
once when the cache file exists and `force` is false; otherwise fetch, and on
success persist the parsed body as the new cache content and return the cache
path; on `RequestException` return the (stale) cache path when the cache file
exists, else re-raise. -/
def download_index (force : Bool) (env : FetchEnv α) (st : FsState α) : DlRun α :=
  if st.cache.present && !force then ⟨.ok .cacheFilePath, st, 0⟩
  else
    match env.remote with
    | .ok v => ⟨.ok .cacheFilePath, { st with cache := .valid v }, 1⟩
    | .error _ =>
        if st.cache.present then ⟨.ok .cacheFilePath, st, 1⟩
        else ⟨.error .network, st, 1⟩

inductive LoadErr where
  | runtimeError
  | fileNotFound
  | jsonDecode
deriving DecidableEq

/-- What a call to `load_index` produces: a parsed document, Python's
implicit `None` (the function can fall off its end), or an exception. -/
inductive LoadOut (α : Type) where
  | value (v : α)
  | pynone
  | error (e : LoadErr)
deriving DecidableEq

/-- One run of `load_index`. -/
structure LoadRun (α : Type) where
  res : LoadOut α
  st : FsState α
  fetches : ℕ
deriving DecidableEq

/-- `json.load(path.open())`: `FileNotFoundError` when the file is missing,
`JSONDecodeError` when it does not parse. -/
def readJsonFile : CacheFile α → LoadOut α
  | .absent => .error .fileNotFound
  | .corrupt => .error .jsonDecode
  | .valid v => .value v

/-- loader.py lines 106-127: the local-fallback tail of `load_index`. With
`local_path` given, read that file; otherwise probe, in order, the repository
copy, `~/.easygese/index.json`, and the cache file once more, reading the
first that exists; raise `FileNotFoundError` when none does. When
`local_fallback` is false the function falls off its end (Python returns
`None`). -/
def loadIndexFallback (local_fallback : Bool) (local_path : Option (CacheFile α))
    (st : FsState α) (n : ℕ) : LoadRun α :=
  if local_fallback then
    match local_path with
    | some lf => ⟨readJsonFile lf, st, n⟩
    | none =>
        if st.repoFile.present then ⟨readJsonFile st.repoFile, st, n⟩
        else if st.homeFile.present then ⟨readJsonFile st.homeFile, st, n⟩
        else if st.cache.present then ⟨readJsonFile st.cache, st, n⟩
        else ⟨.error .fileNotFound, st, n⟩
  else ⟨.pynone, st, n⟩

/-- loader.py lines 96-104: the `if not use_cache` direct remote attempt.
A successful body is returned without being persisted; on `RequestException`
raise `RuntimeError` when `local_fallback` is off, else continue into the
fallback tail. -/
def loadIndexRemote (use_cache local_fallback : Bool)
    (local_path : Option (CacheFile α)) (env : FetchEnv α) (st : FsState α)
    (n : ℕ) : LoadRun α :=
  if !use_cache then
    match env.remote with
    | .ok v => ⟨.value v, st, n + 1⟩
    | .error _ =>
        if !local_fallback then ⟨.error .runtimeError, st, n + 1⟩
        else loadIndexFallback local_fallback local_path st (n + 1)
  else loadIndexFallback local_fallback local_path st n

/-- loader.py lines 86-94: `if force_refresh or not cache_file.exists():`
call `download_index`, then re-open and parse the cache file and return it.
Any exception in that block (a propagated network error, or a parse error of
what the cache now holds) raises `RuntimeError` when `local_fallback` is off
and otherwise falls through to the remaining tiers. -/
def loadIndexDownload (use_cache force_refresh local_fallback : Bool)
    (local_path : Option (CacheFile α)) (env : FetchEnv α) (st : FsState α) :
    LoadRun α :=
  if force_refresh || !st.cache.present then
    match download_index force_refresh env st with
    | ⟨.ok _, st', n⟩ =>
        match st'.cache with
        | .valid v => ⟨.value v, st', n⟩
        | _ =>
            if !local_fallback then ⟨.error .runtimeError, st', n⟩
            else loadIndexRemote use_cache local_fallback local_path env st' n
    | ⟨.error _, st', n⟩ =>
        if !local_fallback then ⟨.error .runtimeError, st', n⟩
        else loadIndexRemote use_cache local_fallback local_path env st' n
  else loadIndexRemote use_cache local_fallback local_path env st 0

/-- loader.py lines 63-127, `load_index(use_cache, force_refresh,
local_fallback, local_path)`. Tier 1 (lines 79-84): when using the cache, not
forcing a refresh, and the cache file exists, parse and return it; a parse
failure prints a message and falls through. -/
def load_index (use_cache force_refresh local_fallback : Bool)
    (local_path : Option (CacheFile α)) (env : FetchEnv α) (st : FsState α) :
    LoadRun α :=
  if use_cache && !force_refresh && st.cache.present then
    match st.cache with
    | .valid v => ⟨.value v, st, 0⟩
    | _ => loadIndexDownload use_cache force_refresh local_fallback local_path env st
  else loadIndexDownload use_cache force_refresh local_fallback local_path env st

/-- C3: with a corrupt cache file present and default arguments, `load_index`
prints "Downloading fresh copy" but performs no fetch at all: the re-download
branch is guarded by `force_refresh or not cache_file.exists()`, which is
false, so with no other local copy available the fallback re-reads the same
corrupt cache and raises `JSONDecodeError` — the remote (here available and
holding `42`) is never contacted and nothing is persisted. -/
theorem load_index_corrupt_cache_never_refetches :
    load_index true false true none (⟨.ok 42⟩ : FetchEnv ℕ)
      ⟨.corrupt, .absent, .absent⟩ =
      ⟨.error .jsonDecode, ⟨.corrupt, .absent, .absent⟩, 0⟩ := by
  rfl

/-- C8, counterexample: two successive default `load_index()` calls are not
limited to one fetch attempt. With no cache file, a failing remote, and the
repository fallback copy (content `7`) present, each run is, in full: result
`7` (read from the fallback), filesystem unchanged — so nothing was persisted
and the second call is not a cache hit — and one fetch attempt, two in total,
refuting the claimed at-most-one-fetch cache-hit behaviour even though both
calls do return identical content. -/
theorem load_index_twice_two_fetches :
    load_index true false true none (⟨.error ()⟩ : FetchEnv ℕ)
        ⟨.absent, .valid 7, .absent⟩ =
      ⟨.value 7, ⟨.absent, .valid 7, .absent⟩, 1⟩ ∧
    load_index true false true none (⟨.error ()⟩ : FetchEnv ℕ)
        (load_index true false true none (⟨.error ()⟩ : FetchEnv ℕ)
          ⟨.absent, .valid 7, .absent⟩).st =
      ⟨.value 7, ⟨.absent, .valid 7, .absent⟩, 1⟩ := by
  exact ⟨rfl, rfl⟩

/-- C8 (amended): calling `load_index()` twice without `force_refresh`
returns identical content both times, in every state of the cache, fallback
files and remote (the environment held fixed between the calls); moreover,
when the cache file initially holds valid JSON, or is absent with the remote
fetch succeeding, at most one remote fetch is performed in total, the
fetched content is persisted, and the second call is a pure cache hit (zero
fetches, reading the persisted cache file). When the cache is absent and the
fetch fails, nothing is persisted and each call makes its own fetch attempt,
as the counterexample shows. -/
theorem load_index_idempotent (env : FetchEnv α) (st : FsState α) :
    ((load_index true false true none env
        (load_index true false true none env st).st).res =
      (load_index true false true none env st).res) ∧
    ((∃ v, st.cache = .valid v) ∨
        (st.cache = .absent ∧ ∃ v, env.remote = .ok v) →
      ∃ v,
        (load_index true false true none env st).res = .value v ∧
        (load_index true false true none env st).st.cache = .valid v ∧
        (load_index true false true none env
            (load_index true false true none env st).st).res = .value v ∧
        (load_index true false true none env st).fetches +
          (load_index true false true none env
            (load_index true false true none env st).st).fetches ≤ 1 ∧
        (load_index true false true none env
            (load_index true false true none env st).st).fetches = 0) := by
  constructor
  · obtain ⟨c, rp, hm⟩ := st
    obtain ⟨rem⟩ := env
    cases c <;> cases rem <;> cases rp <;> cases hm <;>
      simp [load_index, loadIndexDownload, download_index, loadIndexRemote,
        loadIndexFallback, readJsonFile, CacheFile.present]
  · intro h
    obtain ⟨c, rp, hm⟩ := st
    rcases h with ⟨v, hv⟩ | ⟨hc, v, hv⟩
    · cases hv
      refine ⟨v, ?_, ?_, ?_, ?_, ?_⟩ <;>
        simp [load_index, CacheFile.present]
    · cases hc
      obtain ⟨rem⟩ := env
      cases hv
      refine ⟨v, ?_, ?_, ?_, ?_, ?_⟩ <;>
        simp [load_index, loadIndexDownload, download_index, CacheFile.present]

/-- C8 witness: a concrete run of `load_index_idempotent` from an empty
filesystem with the remote body `9`, discharging the success-regime
hypothesis of the second part. -/
theorem load_index_idempotent_witness :
    ((load_index true false true none (⟨.ok 9⟩ : FetchEnv ℕ)
        (load_index true false true none (⟨.ok 9⟩ : FetchEnv ℕ)
          ⟨.absent, .absent, .absent⟩).st).res =
      (load_index true false true none (⟨.ok 9⟩ : FetchEnv ℕ)
        ⟨.absent, .absent, .absent⟩).res) ∧
    ∃ v,
      (load_index true false true none (⟨.ok 9⟩ : FetchEnv ℕ)
        ⟨.absent, .absent, .absent⟩).res = .value v ∧
      (load_index true false true none (⟨.ok 9⟩ : FetchEnv ℕ)
        ⟨.absent, .absent, .absent⟩).st.cache = .valid v ∧
      (load_index true false true none (⟨.ok 9⟩ : FetchEnv ℕ)
          (load_index true false true none (⟨.ok 9⟩ : FetchEnv ℕ)
            ⟨.absent, .absent, .absent⟩).st).res = .value v ∧
      (load_index true false true none (⟨.ok 9⟩ : FetchEnv ℕ)
          ⟨.absent, .absent, .absent⟩).fetches +
        (load_index true false true none (⟨.ok 9⟩ : FetchEnv ℕ)
          (load_index true false true none (⟨.ok 9⟩ : FetchEnv ℕ)
            ⟨.absent, .absent, .absent⟩).st).fetches ≤ 1 ∧
      (load_index true false true none (⟨.ok 9⟩ : FetchEnv ℕ)
          (load_index true false true none (⟨.ok 9⟩ : FetchEnv ℕ)
            ⟨.absent, .absent, .absent⟩).st).fetches = 0 :=
  ⟨(load_index_idempotent ⟨.ok 9⟩ ⟨.absent, .absent, .absent⟩).1,
    (load_index_idempotent ⟨.ok 9⟩ ⟨.absent, .absent, .absent⟩).2
      (.inr ⟨rfl, 9, rfl⟩)⟩

/-- C9: `download_index(force=True)` with a failing remote returns the path
to the stale cached index file when one exists, and propagates the network
error only when no cached file exists. -/
theorem download_index_stale_cache (env : FetchEnv α) (st : FsState α)
    (hfail : env.remote = .error ()) :
    (st.cache.present = true →
      download_index true env st = ⟨.ok .cacheFilePath, st, 1⟩) ∧
    (st.cache.present = false →
      download_index true env st = ⟨.error .network, st, 1⟩) := by
  constructor <;> intro hc <;> simp [download_index, hfail, hc]

/-- C9 witness: with a valid cached index `3` on disk and the remote down,
`download_index(force=True)` returns the cache path. -/
theorem download_index_stale_cache_witness :
    download_index true (⟨.error ()⟩ : FetchEnv ℕ) ⟨.valid 3, .absent, .absent⟩ =
      ⟨.ok .cacheFilePath, ⟨.valid 3, .absent, .absent⟩, 1⟩ :=
  (download_index_stale_cache ⟨.error ()⟩ ⟨.valid 3, .absent, .absent⟩ rfl).1 rfl

/-! ## Dataset Loader (`load_species`) and accessors

pandas data frames are embedded as header/row structures with an explicit
`attrs` dict (the tagging channel the loader uses). CSV and JSON parsing are
delegated to external libraries, so the environment returns already-parsed
contents. -/

/-- A cell of a pandas data frame. Nested containers inside cells are
collapsed to `nan` in this model: the repository's split files hold only 0/1
numbers at cell depth, and no claim inspects such a cell. -/
inductive Cell where
  | str (s : String)
  | num (q : ℚ)
  | cbool (b : Bool)
  | nan
deriving DecidableEq

/-- What `pd.read_csv(..., index_col=0)` yields: column names and rows keyed
by the index column. (The name the index column carries is not tracked; the
loader never reads it.) -/
structure CsvDF where
  header : List String
  rows : List (String × List Cell)
deriving DecidableEq

/-- A pandas data frame as the loader hands it out: content, the index name,
and the `attrs` dict in which the loader may set a kind tag. -/
structure SpDF where
  header : List String
  rows : List (String × List Cell)
  indexName : Option String
  attrs : List (String × Bool)
deriving DecidableEq

/-- A freshly parsed CSV as a data frame: `pd.read_csv` always returns a
frame with empty `attrs`. -/
def dfOfCsv (c : CsvDF) : SpDF :=
  ⟨c.header, c.rows, none, []⟩

/-- `Y.attrs["_is_easygese_Y"] = True`. -/
def tagY (d : SpDF) : SpDF :=
  { d with attrs := dictSet d.attrs "_is_easygese_Y" true }

/-- An entry of the Index: the three resource URLs and the optional
citation. (The optional `metadata` mapping is not read by `load_species`.) -/
structure Entry where
  X : String
  Y : String
  Z : String
  citation : Option String
deriving DecidableEq

/-- Exceptions `load_species` can raise. -/
inductive SpErr where
  | valueError (species : String)
  | keyError (key : String)
  | netErr
  | typeError
deriving DecidableEq

/-- Remote reads of `load_species`: GET of a CSV URL parsed by
`pd.read_csv(io.StringIO(text))`, and GET of a JSON URL parsed by
`response.json()`. A failure stands for the propagated requests/parse
exception. -/
structure SpeciesEnv where
  csv : String → Except Unit CsvDF
  json : String → Except Unit Json

/-- `Z["_is_easygese_Z"] = True`: item assignment requires the parsed JSON to
be an object (a Python dict); on any other value Python raises `TypeError`. -/
def tagZ : Json → Except SpErr (List (String × Json))
  | .obj fs => .ok (dictSet fs "_is_easygese_Z" (.bool true))
  | _ => .error .typeError

/-- loader.py lines 285-304, the remote arm of `load_species`: print the
entry's citation (`entry["citation"]` — a `KeyError` when the field is
absent), then fetch and parse `X`, `Y` and `Z` in that order (each raise
propagates), tag `Y` and `Z`, and return the triple. -/
def load_species_remote (e : Entry) (env : SpeciesEnv) :
    Except SpErr (SpDF × SpDF × List (String × Json)) :=
  match e.citation with
  | none => .error (.keyError "citation")
  | some _ =>
      match env.csv e.X with
      | .error _ => .error .netErr
      | .ok cx =>
          match env.csv e.Y with
          | .error _ => .error .netErr
          | .ok cy =>
              match env.json e.Z with
              | .error _ => .error .netErr
              | .ok jz =>
                  match tagZ jz with
                  | .error er => .error er
                  | .ok z => .ok (dfOfCsv cx, tagY (dfOfCsv cy), z)

/-- loader.py lines 242-304, `load_species(species, use_local, data_dir)`:
look the species up in the index (raising `ValueError` when absent); when
`use_local` is set and all three local files exist, parse them, tag `Y` and
`Z`, and return the triple; otherwise take the remote arm. `localData` is
`some` exactly when all three local files exist, holding their parsed
contents. -/
def load_species (index : List (String × Entry)) (species : String)
    (use_local : Bool) (localData : Option (CsvDF × CsvDF × Json))
    (env : SpeciesEnv) : Except SpErr (SpDF × SpDF × List (String × Json)) :=
  match index.lookup species with
  | none => .error (.valueError species)
  | some entry =>
      match use_local, localData with
      | true, some (lx, ly, lz) =>
          match tagZ lz with
          | .error er => .error er
          | .ok z => .ok (dfOfCsv lx, tagY (dfOfCsv ly), z)
      | _, _ => load_species_remote entry env

/-- A remote environment serving one marker column for any CSV URL and a
one-trait split definition for any JSON URL. -/
def envBean : SpeciesEnv where
  csv := fun _ => .ok ⟨["m1"], [("g1", [.num 1])]⟩
  json := fun _ => .ok (.obj [("t", .obj [("g1", .obj [("Split1CV1", .num 1)])])])

/-- C2, counterexample: a successful remote `load_species` run returns the
genotype table with an empty `attrs` dict — no `_is_easygese_X` (X-kind) tag
is ever set on it, only `Y` and `Z` are tagged — contradicting the claim that
each of the three objects is tagged with its kind. -/
theorem load_species_X_untagged :
    load_species [("bean", ⟨"u1", "u2", "u3", some "cite"⟩)] "bean" false none
        envBean =
      .ok (⟨["m1"], [("g1", [.num 1])], none, []⟩,
        ⟨["m1"], [("g1", [.num 1])], none, [("_is_easygese_Y", true)]⟩,
        [("t", .obj [("g1", .obj [("Split1CV1", .num 1)])]),
          ("_is_easygese_Z", .bool true)]) := by
  rfl

/-- C2 (amended): whenever `load_species` succeeds, it returns the triple in
the order (genotype table, phenotype table, split definition) — the first
component parsed from the entry's `X` source, the second from `Y`, the third
from `Z` — with the phenotype table tagged Y-kind and the split definition
tagged Z-kind; the genotype table is returned untagged (its `attrs` stay
empty). -/
theorem tagZ_ok_tagged (j : Json) (fs : List (String × Json))
    (hj : tagZ j = .ok fs) : dictGet fs "_is_easygese_Z" = some (.bool true) := by
  cases j <;> simp [tagZ] at hj
  rw [← hj]
  exact dictGet_dictSet _ _ _

theorem load_species_remote_ok (e : Entry) (env : SpeciesEnv)
    (x y : SpDF) (z : List (String × Json))
    (h : load_species_remote e env = .ok (x, y, z)) :
    ∃ cx cy jz, env.csv e.X = .ok cx ∧ env.csv e.Y = .ok cy ∧
      env.json e.Z = .ok jz ∧ x = dfOfCsv cx ∧ y = tagY (dfOfCsv cy) ∧
      tagZ jz = .ok z := by
  unfold load_species_remote at h
  split at h
  · simp at h
  · split at h
    · simp at h
    · split at h
      · simp at h
      · split at h
        · simp at h
        · split at h
          · simp at h
          · rename_i xo c hcit xx cx hcx xy cy hcy xz jz hjz xt zd hz
            simp at h
            obtain ⟨hx, hy, hzz⟩ := h
            subst hx hy hzz
            exact ⟨cx, cy, jz, hcx, hcy, hjz, rfl, rfl, hz⟩

theorem load_species_order_and_tags (index : List (String × Entry))
    (species : String) (use_local : Bool)
    (localData : Option (CsvDF × CsvDF × Json)) (env : SpeciesEnv)
    (x y : SpDF) (z : List (String × Json))
    (h : load_species index species use_local localData env = .ok (x, y, z)) :
    x.attrs = [] ∧
    dictGet y.attrs "_is_easygese_Y" = some true ∧
    dictGet z "_is_easygese_Z" = some (.bool true) ∧
    ∃ e, index.lookup species = some e ∧
      ((∃ lx ly lz, use_local = true ∧ localData = some (lx, ly, lz) ∧
          x = dfOfCsv lx ∧ y = tagY (dfOfCsv ly) ∧ tagZ lz = .ok z) ∨
        (∃ cx cy jz, env.csv e.X = .ok cx ∧ env.csv e.Y = .ok cy ∧
          env.json e.Z = .ok jz ∧
          x = dfOfCsv cx ∧ y = tagY (dfOfCsv cy) ∧ tagZ jz = .ok z)) := by
  unfold load_species at h
  cases hidx : index.lookup species with
  | none => rw [hidx] at h; simp at h
  | some e =>
    rw [hidx] at h
    cases use_local with
    | true =>
      cases localData with
      | none =>
        have h' : load_species_remote e env = .ok (x, y, z) := h
        obtain ⟨cx, cy, jz, hcx, hcy, hjz, hx, hy, hz⟩ :=
          load_species_remote_ok e env x y z h'
        subst hx hy
        exact ⟨rfl, rfl, tagZ_ok_tagged _ _ hz, e, rfl,
          .inr ⟨cx, cy, jz, hcx, hcy, hjz, rfl, rfl, hz⟩⟩
      | some ld =>
        obtain ⟨lx, ly, lz⟩ := ld
        have h2 : (match tagZ lz with
            | .error er => Except.error er
            | .ok z => .ok (dfOfCsv lx, tagY (dfOfCsv ly), z)) = .ok (x, y, z) := h
        cases hz : tagZ lz with
        | error er => rw [hz] at h2; simp at h2
        | ok zd =>
          rw [hz] at h2
          simp at h2
          obtain ⟨hx, hy, hzz⟩ := h2
          subst hx hy hzz
          exact ⟨rfl, rfl, tagZ_ok_tagged _ _ hz, e, rfl,
            .inl ⟨lx, ly, lz, rfl, rfl, rfl, rfl, hz⟩⟩
    | false =>
      have h' : load_species_remote e env = .ok (x, y, z) := by
        cases localData with
        | none => exact h
        | some ld => exact h
      obtain ⟨cx, cy, jz, hcx, hcy, hjz, hx, hy, hz⟩ :=
        load_species_remote_ok e env x y z h'
      subst hx hy
      exact ⟨rfl, rfl, tagZ_ok_tagged _ _ hz, e, rfl,
        .inr ⟨cx, cy, jz, hcx, hcy, hjz, rfl, rfl, hz⟩⟩

/-- C2 witness: a concrete remote run of `load_species_order_and_tags`. -/
theorem load_species_order_and_tags_witness :
    (⟨["m1"], [("g1", [.num 1])], none, []⟩ : SpDF).attrs = [] ∧
    dictGet [("_is_easygese_Y", true)] "_is_easygese_Y" = some true ∧
    dictGet [("t", Json.obj [("g1", .obj [("Split1CV1", Json.num 1)])]),
      ("_is_easygese_Z", Json.bool true)] "_is_easygese_Z" = some (.bool true) ∧
    ∃ e, List.lookup "bean" [("bean", (⟨"u1", "u2", "u3", some "cite"⟩ : Entry))] = some e ∧
      ((∃ lx ly lz, false = true ∧
          (none : Option (CsvDF × CsvDF × Json)) = some (lx, ly, lz) ∧
          (⟨["m1"], [("g1", [.num 1])], none, []⟩ : SpDF) = dfOfCsv lx ∧
          (⟨["m1"], [("g1", [.num 1])], none, [("_is_easygese_Y", true)]⟩ : SpDF) =
            tagY (dfOfCsv ly) ∧
          tagZ lz = .ok [("t", .obj [("g1", .obj [("Split1CV1", .num 1)])]),
            ("_is_easygese_Z", .bool true)]) ∨
        (∃ cx cy jz, envBean.csv e.X = .ok cx ∧ envBean.csv e.Y = .ok cy ∧
          envBean.json e.Z = .ok jz ∧
          (⟨["m1"], [("g1", [.num 1])], none, []⟩ : SpDF) = dfOfCsv cx ∧
          (⟨["m1"], [("g1", [.num 1])], none, [("_is_easygese_Y", true)]⟩ : SpDF) =
            tagY (dfOfCsv cy) ∧
          tagZ jz = .ok [("t", .obj [("g1", .obj [("Split1CV1", .num 1)])]),
            ("_is_easygese_Z", .bool true)])) :=
  load_species_order_and_tags
    [("bean", ⟨"u1", "u2", "u3", some "cite"⟩)] "bean" false none envBean
    _ _ _ (by rfl)

/-- C7: the citation field is required, not optional, on the remote path: on
an Index entry without a `citation` field (the test suite's mock entries have
none), `load_species` raises `KeyError` at `print(entry["citation"])` instead
of loading the data — the fetches never happen. -/
theorem load_species_missing_citation_raises :
    load_species [("lentil", ⟨"ux", "uy", "uz", none⟩)] "lentil" true none
      envBean = .error (.keyError "citation") := by
  rfl

/-! ## Trait/CV accessors (`list_traits`, `get_cv_indices`) -/

/-- The two object shapes `list_traits` distinguishes with `isinstance`:
a Python dict (a parsed `Z`) or a pandas data frame (a `Y`). -/
inductive PyObj where
  | dict (d : List (String × Json))
  | df (f : SpDF)

inductive LtErr where
  | typeError
deriving DecidableEq

/-- Python `k.startswith("_")`. -/
def startsWithUnderscore (k : String) : Bool :=
  match k.data with
  | [] => false
  | c :: _ => c = '_'

/-- loader.py lines 306-323, `list_traits(obj)`: on a dict whose
`_is_easygese_Z` entry is truthy, return the keys that do not start with an
underscore, in insertion order; on a data frame whose `attrs` carry
`_is_easygese_Y`, return its columns in order; otherwise raise `TypeError`. -/
def list_traits : PyObj → Except LtErr (List String)
  | .dict d =>
      if truthy ((dictGet d "_is_easygese_Z").getD (.bool false)) then
        .ok ((dictKeys d).filter (fun k => ! startsWithUnderscore k))
      else .error .typeError
  | .df f =>
      if (dictGet f.attrs "_is_easygese_Y").getD false then .ok f.header
      else .error .typeError

/-- C5, counterexample: on a tagged Z-kind mapping with a trait named
`"_hidden"`, `list_traits` filters out every key starting with an
underscore, not just the internal tag key, so it returns `[]` where the
claim requires `["_hidden"]`. -/
theorem list_traits_drops_underscore_traits :
    list_traits (.dict [("_hidden", .obj []), ("_is_easygese_Z", .bool true)]) =
        .ok [] ∧
      list_traits (.dict [("_hidden", .obj []), ("_is_easygese_Z", .bool true)]) ≠
        .ok ["_hidden"] := by
  exact ⟨rfl, by decide⟩

/-- C5 (amended): on a tagged Z-kind mapping, `list_traits` returns the keys
that do not start with an underscore, in original insertion order — in
particular the internal tag key is never returned; on a tagged Y-kind table
it returns exactly the column names in column order. -/
theorem list_traits_spec (d : List (String × Json)) (f : SpDF)
    (hd : truthy ((dictGet d "_is_easygese_Z").getD (.bool false)) = true)
    (hf : (dictGet f.attrs "_is_easygese_Y").getD false = true) :
    list_traits (.dict d) =
      .ok ((dictKeys d).filter (fun k => ! startsWithUnderscore k)) ∧
    "_is_easygese_Z" ∉ (dictKeys d).filter (fun k => ! startsWithUnderscore k) ∧
    list_traits (.df f) = .ok f.header := by
  refine ⟨by simp [list_traits, hd], ?_, by simp [list_traits, hf]⟩
  intro hmem
  rw [List.mem_filter] at hmem
  exact absurd hmem.2 (by decide)

/-- C5 witness: a concrete Z mapping and Y table run through
`list_traits_spec`. -/
theorem list_traits_spec_witness :
    list_traits (.dict [("DF", .obj [("g1", .num 0)]), ("_is_easygese_Z", .bool true)]) =
      .ok ["DF"] ∧
    "_is_easygese_Z" ∉
      (dictKeys [("DF", Json.obj [("g1", .num 0)]), ("_is_easygese_Z", Json.bool true)]).filter
        (fun k => ! startsWithUnderscore k) ∧
    list_traits (.df ⟨["DF", "DTF"], [], none, [("_is_easygese_Y", true)]⟩) =
      .ok ["DF", "DTF"] :=
  list_traits_spec
    [("DF", .obj [("g1", .num 0)]), ("_is_easygese_Z", .bool true)]
    ⟨["DF", "DTF"], [], none, [("_is_easygese_Y", true)]⟩ (by rfl) (by rfl)

/-- Exceptions of `get_cv_indices`. The `valueErrorTraitNotFound` payload
carries the trait and the full key list of `z` — the pieces interpolated
into the message "Trait ... not found. Available traits: ..." by
`', '.join(z.keys())`. -/
inductive CvErr where
  | valueErrorTraitNotFound (trait : String) (available : List String)
  | typeError
deriving DecidableEq

/-- Keys in order of first appearance (how pandas unions row keys into a
column order in `DataFrame.from_dict(..., orient='index')`). -/
def firstSeenAux : List String → List String → List String
  | [], acc => acc.reverse
  | k :: rest, acc =>
      if k ∈ acc then firstSeenAux rest acc else firstSeenAux rest (k :: acc)

def firstSeen (l : List String) : List String :=
  firstSeenAux l []

/-- A leaf JSON value as a pandas cell (`None` becomes NaN). -/
def jsonToCell : Json → Cell
  | .num q => .num q
  | .str s => .str s
  | .bool b => .cbool b
  | .null => .nan
  | .arr _ => .nan
  | .obj _ => .nan

/-- Checks that every row value of the trait mapping is itself a mapping
(split label → 0/1); `pd.DataFrame.from_dict(..., orient='index')` raises
`TypeError` on a scalar row value. -/
def allInner : List (String × Json) →
    Option (List (String × List (String × Json)))
  | [] => some []
  | (g, .obj fs) :: rest => (allInner rest).map (fun r => (g, fs) :: r)
  | _ => none

/-- `pd.DataFrame.from_dict(trait_data, orient='index')`: rows are the
genotypes in insertion order, columns the union of the inner split-label
keys in first-seen order, cells the original values (missing entries NaN). -/
def from_dict_index (fields : List (String × Json)) : Except CvErr SpDF :=
  match allInner fields with
  | none => .error .typeError
  | some rowsF =>
      .ok ⟨firstSeen (rowsF.flatMap (fun r => dictKeys r.2)),
        rowsF.map (fun r =>
          (r.1, (firstSeen (rowsF.flatMap (fun s => dictKeys s.2))).map (fun c =>
            match dictGet r.2 c with
            | some j => jsonToCell j
            | none => Cell.nan))),
        none, []⟩

theorem from_dict_index_error (fs : List (String × Json)) (er : CvErr)
    (h : from_dict_index fs = .error er) : er = .typeError := by
  unfold from_dict_index at h
  cases her : allInner fs with
  | none => rw [her] at h; simp at h; exact h.symm
  | some rs => rw [her] at h; simp at h

/-- loader.py lines 325-344, `get_cv_indices(z, trait)`: no Z-kind check is
performed; when `trait` is not a key of `z` raise `ValueError` whose message
enumerates every key of `z` (the internal tag key included); otherwise build
the data frame from `z[trait]` and name its index "Genotype". -/
def get_cv_indices (z : List (String × Json)) (trait : String) :
    Except CvErr SpDF :=
  match dictGet z trait with
  | none => .error (.valueErrorTraitNotFound trait (dictKeys z))
  | some td =>
      match td with
      | .obj fs =>
          match from_dict_index fs with
          | .error er => .error er
          | .ok df => .ok { df with indexName := some "Genotype" }
      | _ => .error .typeError

/-- C6, counterexample: on a mapping that carries no Z-kind tag at all,
`get_cv_indices` happily returns a data frame instead of failing with
`InvalidArgumentError` — the function never checks the tag. -/
theorem get_cv_indices_no_kind_check :
    get_cv_indices [("t", .obj [("g1", .obj [("Split1CV1", .num 1)])])] "t" =
      .ok ⟨["Split1CV1"], [("g1", [.num 1])], some "Genotype", []⟩ := by
  rfl

/-- C6 (amended): `get_cv_indices` performs no Z-kind check on `z`; for any
mapping `z`, when `trait` is not a key it fails with `ValueError` whose
message enumerates all keys of `z` (the internal tag key included), and when
`trait` is a key — even the internal tag key itself — it never raises the
trait-not-found error (it may still fail later building the frame). -/
theorem get_cv_indices_spec (z : List (String × Json)) (trait : String) :
    (dictGet z trait = none →
      get_cv_indices z trait =
        .error (.valueErrorTraitNotFound trait (dictKeys z))) ∧
    (∀ td, dictGet z trait = some td →
      ∀ t avail, get_cv_indices z trait ≠
        .error (.valueErrorTraitNotFound t avail)) := by
  constructor
  · intro hn
    unfold get_cv_indices
    rw [hn]
  · intro td hs t avail
    unfold get_cv_indices
    rw [hs]
    cases td with
    | obj fs =>
        cases hfd : from_dict_index fs with
        | error er =>
            have hte : er = CvErr.typeError := from_dict_index_error fs er hfd
            subst hte
            simp [hfd]
        | ok df => simp [hfd]
    | str s => simp
    | num q => simp
    | bool b => simp
    | null => simp
    | arr xs => simp

/-- C6 witness: on a tagged Z mapping, an unknown trait yields the
`ValueError` whose enumerated keys include the internal tag key, and looking
up a present trait does not raise the trait-not-found error. -/
theorem get_cv_indices_spec_witness :
    get_cv_indices [("DF", .obj [("g1", .obj [("Split1CV1", .num 1)])]),
        ("_is_easygese_Z", .bool true)] "missing" =
      .error (.valueErrorTraitNotFound "missing" ["DF", "_is_easygese_Z"]) ∧
    get_cv_indices [("DF", .obj [("g1", .obj [("Split1CV1", .num 1)])]),
        ("_is_easygese_Z", .bool true)] "_is_easygese_Z" ≠
      .error (.valueErrorTraitNotFound "x" []) := by
  constructor
  · exact (get_cv_indices_spec
      [("DF", .obj [("g1", .obj [("Split1CV1", .num 1)])]),
        ("_is_easygese_Z", .bool true)] "missing").1 (by rfl)
  · exact (get_cv_indices_spec
      [("DF", .obj [("g1", .obj [("Split1CV1", .num 1)])]),
        ("_is_easygese_Z", .bool true)] "_is_easygese_Z").2
      (.bool true) (by rfl) "x" []

/-! ## Benchmark Loader (`load_benchmark_results`)

The file-selection and cache code of `load_benchmark_results` (lines
443-477) performs I/O only; the embedding starts where the chosen CSV has
been parsed by `pd.read_csv` (line 477) into a plain table `df`, and covers
normalization, combination validation, filtering and summarization (lines
482-532). -/

/-- A benchmark results table: the CSV header as parsed, and rows of cells. -/
structure BDF where
  header : List String
  rows : List (List Cell)
deriving DecidableEq

inductive PdErr where
  | keyError (col : String)
  | typeErrorAgg
deriving DecidableEq

/-- The position of column `name` in the header — the exact, case-sensitive
match `df[name]` performs; `none` models the `KeyError` pandas raises. -/
def colIdx (df : BDF) (name : String) : Option ℕ :=
  df.header.findIdx? (fun h => h == name)

def Cell.isNum : Cell → Bool
  | .num _ => true
  | _ => false

/-- `Series.isin(vals)` on one cell: a string cell matches a supplied string,
nothing else does. -/
def cellIsIn (c : Cell) (vals : List String) : Bool :=
  match c with
  | .str s => vals.contains s
  | _ => false

/-- `df[df[name].isin(vals)]`. -/
def filterIsIn (df : BDF) (name : String) (vals : List String) :
    Except PdErr BDF :=
  match colIdx df name with
  | none => .error (.keyError name)
  | some i => .ok ⟨df.header, df.rows.filter (fun r => cellIsIn (r.getD i .nan) vals)⟩

/-- A `species`/`traits`/`models` argument: a bare string or a list. -/
inductive StrOrList where
  | single (s : String)
  | list (l : List String)
deriving DecidableEq

/-- Lines 482-488: `if isinstance(x, str): x = [x]` — a bare string becomes
a one-element list before any filtering. -/
def normalizeParam : Option StrOrList → Option (List String)
  | none => none
  | some (.single s) => some [s]
  | some (.list l) => some l

/-- Lines 491-509: when `validate_combinations` and both `species` and
`traits` were supplied, the validation reads `original_df['species']` and
`original_df['trait']` (raising `KeyError` when a column is missing); its
set computations and warnings have no other effect on the result. -/
def validateCombos (df : BDF) (sp tr : Option (List String))
    (validate : Bool) : Except PdErr Unit :=
  if validate then
    match sp, tr with
    | some _, some _ =>
        match colIdx df "species" with
        | none => .error (.keyError "species")
        | some _ =>
            match colIdx df "trait" with
            | none => .error (.keyError "trait")
            | some _ => .ok ()
    | _, _ => .ok ()
  else .ok ()

/-- Lines 511-517: apply an `isin` filter only when the criterion was
supplied. -/
def applyFilter (df : BDF) (name : String) :
    Option (List String) → Except PdErr BDF
  | none => .ok df
  | some vals => filterIsIn df name vals

def cellQ : Cell → ℚ
  | .num q => q
  | _ => 0

/-- `mean` over a group's cells (the group is never empty; all cells are
numeric when this is reached). -/
def aggMean (l : List Cell) : Cell :=
  .num ((l.map cellQ).sum / (l.length : ℚ))

/-- pandas `std` (ddof=1) is the square root of this sample variance; a
one-row group yields NaN. The square root of a rational is irrational in
general, and no claim reads an aggregated magnitude, so the cell records the
variance. -/
def aggStd (l : List Cell) : Cell :=
  if l.length ≤ 1 then .nan
  else
    .num (((l.map cellQ).map
      (fun x => (x - (l.map cellQ).sum / (l.length : ℚ)) ^ 2)).sum /
      ((l.length : ℚ) - 1))

/-- The (species, trait, model) key cells of a row. -/
def keyOf (r : List Cell) (si ti mi : ℕ) : Cell × Cell × Cell :=
  (r.getD si .nan, r.getD ti .nan, r.getD mi .nan)

/-- A total order on key cells for pandas' sorted group keys. The key columns
of the benchmark tables are strings; ordering across cell kinds is by an
arbitrary fixed rank (pandas would raise on mixed-type sort keys). -/
def cellRank : Cell → ℕ
  | .nan => 0
  | .cbool _ => 1
  | .num _ => 2
  | .str _ => 3

def cellLeB : Cell → Cell → Bool
  | .nan, .nan => true
  | .cbool a, .cbool b => !a || b
  | .num a, .num b => decide (a ≤ b)
  | .str a, .str b => decide (a ≤ b)
  | a, b => decide (cellRank a ≤ cellRank b)

def keyLe (a b : Cell × Cell × Cell) : Bool :=
  if a.1 ≠ b.1 then cellLeB a.1 b.1
  else if a.2.1 ≠ b.2.1 then cellLeB a.2.1 b.2.1
  else cellLeB a.2.2 b.2.2

/-- `groupby` key order: distinct keys, sorted ascending. -/
def sortKeys (ks : List (Cell × Cell × Cell)) : List (Cell × Cell × Cell) :=
  ks.insertionSort (fun a b => keyLe a b = true)

/-- The aggregated output row of one (species, trait, model) group. -/
def groupRow (df : BDF) (si ti mi ci ri : ℕ) (k : Cell × Cell × Cell) :
    List Cell :=
  [k.1, k.2.1, k.2.2,
    aggMean ((df.rows.filter (fun r => decide (keyOf r si ti mi = k))).map
      (fun r => r.getD ci Cell.nan)),
    aggStd ((df.rows.filter (fun r => decide (keyOf r si ti mi = k))).map
      (fun r => r.getD ci Cell.nan)),
    aggMean ((df.rows.filter (fun r => decide (keyOf r si ti mi = k))).map
      (fun r => r.getD ri Cell.nan)),
    aggStd ((df.rows.filter (fun r => decide (keyOf r si ti mi = k))).map
      (fun r => r.getD ri Cell.nan))]

/-- Lines 520-530: when `summarize` is requested and the (filtered) table
still has a `CV_split` column, group by (species, trait, model), aggregate
mean and std of `correlation` and `RMSE`, and rename the flattened columns;
a missing column raises `KeyError`, non-numeric aggregation targets raise a
`TypeError` at aggregation. -/
def summarizeStep (df : BDF) (summarize : Bool) : Except PdErr BDF :=
  if summarize && df.header.contains "CV_split" then
    match colIdx df "species" with
    | none => .error (.keyError "species")
    | some si =>
    match colIdx df "trait" with
    | none => .error (.keyError "trait")
    | some ti =>
    match colIdx df "model" with
    | none => .error (.keyError "model")
    | some mi =>
    match colIdx df "correlation" with
    | none => .error (.keyError "correlation")
    | some ci =>
    match colIdx df "RMSE" with
    | none => .error (.keyError "RMSE")
    | some ri =>
    if df.rows.all (fun r =>
        (r.getD ci Cell.nan).isNum && (r.getD ri Cell.nan).isNum) then
      .ok ⟨["species", "trait", "model", "correlation_mean", "correlation_std",
          "RMSE_mean", "RMSE_std"],
        (sortKeys ((df.rows.map (fun r => keyOf r si ti mi)).dedup)).map
          (groupRow df si ti mi ci ri)⟩
    else .error .typeErrorAgg
  else .ok df

/-- loader.py lines 482-532, the data path of
`load_benchmark_results(species, traits, models, summarize,
validate_combinations)` on the parsed table `df`: normalize the three
criteria, validate combinations, apply the supplied `isin` filters on the
exact lowercase column names, then summarize. -/
def load_benchmark_results (df : BDF) (species traits models : Option StrOrList)
    (summarize validate_combinations : Bool) : Except PdErr BDF :=
  match validateCombos df (normalizeParam species) (normalizeParam traits)
      validate_combinations with
  | .error e => .error e
  | .ok _ =>
      match applyFilter df "species" (normalizeParam species) with
      | .error e => .error e
      | .ok df1 =>
          match applyFilter df1 "trait" (normalizeParam traits) with
          | .error e => .error e
          | .ok df2 =>
              match applyFilter df2 "model" (normalizeParam models) with
              | .error e => .error e
              | .ok df3 => summarizeStep df3 summarize

/-- C4, counterexample: on a table whose CSV header spells the column
`"Species"`, `load_benchmark_results(species="bean")` raises `KeyError` at
`df['species']` instead of locating the column case-insensitively and
returning the bean rows. -/
theorem load_benchmark_results_case_sensitive_columns :
    load_benchmark_results
      ⟨["Species", "trait", "model"],
        [[.str "bean", .str "t1", .str "GBLUP"],
          [.str "maize", .str "t1", .str "GBLUP"]]⟩
      (some (.single "bean")) none none true true =
      .error (.keyError "species") := by
  rfl

/-- C4 (amended): `load_benchmark_results` locates the species/trait/model
columns by their exact lowercase names (a header spelled `"Species"` raises
`KeyError`, as the counterexample shows); on a table whose header contains
`"species"` exactly (and no `CV_split` column, as in the summary file), it
applies `isin` filters only for the supplied criteria: with `species` given
it keeps exactly the rows whose species cell is in the list, and with no
criteria supplied it returns the table unchanged. -/
theorem load_benchmark_results_filters (df : BDF) (sp : List String)
    (vc : Bool) (i : ℕ) (hi : colIdx df "species" = some i)
    (hcv : df.header.contains "CV_split" = false) :
    load_benchmark_results df (some (.list sp)) none none true vc =
      .ok ⟨df.header, df.rows.filter (fun r => cellIsIn (r.getD i .nan) sp)⟩ ∧
    load_benchmark_results df none none none true vc = .ok df := by
  have hval : validateCombos df (some sp) none vc = .ok () := by
    cases vc <;> rfl
  have hval2 : validateCombos df none none vc = .ok () := by
    cases vc <;> rfl
  constructor
  · simp only [load_benchmark_results, normalizeParam, hval, applyFilter,
      filterIsIn, hi, summarizeStep, hcv, Bool.and_false]
    rfl
  · simp only [load_benchmark_results, normalizeParam, hval2, applyFilter,
      summarizeStep, hcv, Bool.and_false]
    rfl

/-- C4 witness: a concrete lowercase-header table with bean and maize rows,
filtered to the bean rows. -/
theorem load_benchmark_results_filters_witness :
    load_benchmark_results
      ⟨["species", "trait", "model"],
        [[.str "bean", .str "t1", .str "GBLUP"],
          [.str "maize", .str "t1", .str "GBLUP"]]⟩
      (some (.list ["bean"])) none none true true =
      .ok ⟨["species", "trait", "model"],
        [[.str "bean", .str "t1", .str "GBLUP"]]⟩ ∧
    load_benchmark_results
      ⟨["species", "trait", "model"],
        [[.str "bean", .str "t1", .str "GBLUP"],
          [.str "maize", .str "t1", .str "GBLUP"]]⟩
      none none none true true =
      .ok ⟨["species", "trait", "model"],
        [[.str "bean", .str "t1", .str "GBLUP"],
          [.str "maize", .str "t1", .str "GBLUP"]]⟩ :=
  load_benchmark_results_filters
    ⟨["species", "trait", "model"],
      [[.str "bean", .str "t1", .str "GBLUP"],
        [.str "maize", .str "t1", .str "GBLUP"]]⟩
    ["bean"] true 0 (by rfl) (by rfl)

/-- C10: for each of the three filter parameters, passing a bare string `s`
yields the same result table as passing the one-element list `[s]` — the
string is normalized to a singleton list before any validation, filtering or
summarization. -/
theorem load_benchmark_results_string_eq_singleton (df : BDF) (s : String)
    (p q : Option StrOrList) (sm vc : Bool) :
    load_benchmark_results df (some (.single s)) p q sm vc =
      load_benchmark_results df (some (.list [s])) p q sm vc ∧
    load_benchmark_results df p (some (.single s)) q sm vc =
      load_benchmark_results df p (some (.list [s])) q sm vc ∧
    load_benchmark_results df p q (some (.single s)) sm vc =
      load_benchmark_results df p q (some (.list [s])) sm vc :=
  ⟨rfl, rfl, rfl⟩

end EasyGeSe
